import Mathlib

/-!
Shallow embedding of the bilibili live-monitor plugin
(`models.py`, `poll_manager.py`, `api_client.py`) and proofs about it.
-/

/-- Python value universe for the loosely-typed JSON/API payloads that the
code manipulates.  The upstream endpoints consumed here deliver null,
booleans, integers, strings, arrays and objects; floats are not modelled. -/
inductive PyValue where
  | none
  | bool (b : Bool)
  | int (n : Int)
  | str (s : String)
  | list (xs : List PyValue)
  | dict (entries : List (String × PyValue))
  deriving Repr

mutual

/-- Python `repr` of a value, as used by `str()` on containers.  String
escaping inside quotes is not modelled (no claim depends on it). -/
def pyRepr : PyValue → String
  | .none => "None"
  | .bool b => if b then "True" else "False"
  | .int n => toString n
  | .str s => "'" ++ s ++ "'"
  | .list xs => "[" ++ String.intercalate ", " (pyReprList xs) ++ "]"
  | .dict es => "\x7b" ++ String.intercalate ", " (pyReprDict es) ++ "\x7d"

/-- Representations of the elements of a Python list. -/
def pyReprList : List PyValue → List String
  | [] => []
  | x :: xs => pyRepr x :: pyReprList xs

/-- Representations of the key/value pairs of a Python dict. -/
def pyReprDict : List (String × PyValue) → List String
  | [] => []
  | (k, v) :: es => ("'" ++ k ++ "': " ++ pyRepr v) :: pyReprDict es

end

/-- Python `str(v)`: identity on strings, `repr` otherwise. -/
def pyStr : PyValue → String
  | .str s => s
  | v => pyRepr v

/-- Python truthiness (`bool(v)` / `if v:`). -/
def pyTruthy : PyValue → Bool
  | .none => false
  | .bool b => b
  | .int n => n != 0
  | .str s => s != ""
  | .list xs => !xs.isEmpty
  | .dict es => !es.isEmpty

/-- Python `d.get(k)`: `Option.none` models the Python `None` returned for a
missing key (first occurrence wins in this association-list model). -/
def dictGet (es : List (String × PyValue)) (k : String) : Option PyValue :=
  match es with
  | [] => Option.none
  | (k2, v) :: rest => if k2 = k then some v else dictGet rest k

/-- Python `d.get(k, default)`: the default is used only when the key is
absent (a stored `None` is returned as-is). -/
def dictGetD (es : List (String × PyValue)) (k : String) (d : PyValue) : PyValue :=
  (dictGet es k).getD d

/-- Python `s.strip()` on a character list: drop whitespace from both
ends. -/
def pyTrimList (cs : List Char) : List Char :=
  ((cs.dropWhile Char.isWhitespace).reverse.dropWhile Char.isWhitespace).reverse

/-- Python `s.strip()`. -/
def pyTrim (s : String) : String :=
  String.mk (pyTrimList s.data)

/-- Helper of `pySplitComma`: accumulates the current field (reversed). -/
def splitCommaAux : List Char → List Char → List String
  | [], acc => [String.mk acc.reverse]
  | c :: cs, acc =>
    if c = ',' then String.mk acc.reverse :: splitCommaAux cs []
    else splitCommaAux cs (c :: acc)

/-- Python `s.split(',')`: always at least one field; empty fields kept. -/
def pySplitComma (s : String) : List String :=
  splitCommaAux s.data []

/-- Decimal digit run to a number: `Option.none` unless the run is a
non-empty all-digit sequence. -/
def parseDigits (cs : List Char) : Option Nat :=
  if cs ≠ [] ∧ cs.all Char.isDigit then
    some (cs.foldl (fun a c => a * 10 + (c.toNat - 48)) 0)
  else Option.none

/-- Python `int(s)` on a string: optional sign after stripping surrounding
whitespace, then decimal digits (underscore digit grouping is not
modelled). -/
def parsePyInt (s : String) : Option Int :=
  match pyTrimList s.data with
  | '-' :: rest => (parseDigits rest).map (fun n => -(n : Int))
  | '+' :: rest => (parseDigits rest).map (fun n => (n : Int))
  | cs => (parseDigits cs).map (fun n => (n : Int))

/-- Notification kinds from `models.py` (`NotificationType`). -/
inductive NotificationType where
  | LIVE_START
  | LIVE_END
  deriving Repr, DecidableEq

/-- The `RoomInfo` dataclass of `models.py`.  Python `dict` fields are
modelled as association lists; numeric fields are unbounded `Int` exactly
like Python integers.  Field defaults mirror the dataclass defaults. -/
structure RoomInfo where
  room_id : Int
  title : String
  live_status : Bool
  live_time : String
  area_name : String
  tags : List String
  hot_words : List String
  online : Int
  attention : Int
  user_cover : Option String := Option.none
  keyframe : Option String := Option.none
  is_strict_room : Bool := false
  room_silent_type : String := ""
  room_silent_level : Int := 0
  room_silent_second : Int := 0
  background : Option String := Option.none
  verify : String := ""
  new_pendants : List (String × PyValue) := []
  up_session : Option String := Option.none
  pk_status : Int := 0
  pk_id : Int := 0
  battle_id : Int := 0
  allow_change_area_time : Int := 0
  allow_upload_cover_time : Int := 0
  studio_info : List (String × PyValue) := []
  deriving Repr

/-- The `RoomStatus` pydantic model of `models.py`: the persisted record. -/
structure RoomStatus where
  room_id : Int
  live_status : Bool
  deriving Repr, DecidableEq

/-- State of the `RoomStatus.json` file as `load_from_json` encounters it.
`parsed v` holds the JSON value `json.load` would produce; `malformed`
stands for text `json.load` rejects; `unreadable` for an open/read
failure. -/
inductive FileState where
  | missing
  | unreadable
  | malformed
  | parsed (v : PyValue)
  deriving Repr

/-- Pydantic lax validation of an `int` field (accepts ints and numeric
strings; rejects bools and other shapes). -/
def pydInt : PyValue → Option Int
  | .int n => some n
  | .str s => parsePyInt s
  | _ => Option.none

/-- Pydantic lax validation of a `bool` field. -/
def pydBool : PyValue → Option Bool
  | .bool b => some b
  | .int 0 => some false
  | .int 1 => some true
  | .str s =>
    match String.mk (s.data.map Char.toLower) with
    | "true" | "t" | "yes" | "y" | "on" | "1" => some true
    | "false" | "f" | "no" | "n" | "off" | "0" => some false
    | _ => Option.none
  | _ => Option.none

/-- The `RoomStatus(**data)` construction inside `load_from_json`: the
loaded JSON must be an object carrying validatable `room_id` and
`live_status` fields, otherwise pydantic raises (surfaced here as
`Option.none`, matching the `except` handler). -/
def roomStatusOfPy : PyValue → Option RoomStatus
  | .dict es =>
    match dictGet es "room_id" with
    | Option.none => Option.none
    | some rid =>
      match pydInt rid with
      | Option.none => Option.none
      | some r =>
        match dictGet es "live_status" with
        | Option.none => Option.none
        | some ls =>
          match pydBool ls with
          | Option.none => Option.none
          | some b => some ⟨r, b⟩
  | _ => Option.none

/-- The `RoomStatus.load_from_json` classmethod: every failure path
(missing file, unreadable file, JSON parse failure, pydantic validation
failure) is caught and turned into `None`. -/
def load_from_json : FileState → Option RoomStatus
  | .missing => Option.none
  | .unreadable => Option.none
  | .malformed => Option.none
  | .parsed v => roomStatusOfPy v

/-- The `model_dump()` of a `RoomStatus`, as `save_to_json` serializes it. -/
def roomStatusDump (st : RoomStatus) : PyValue :=
  .dict [("room_id", .int st.room_id), ("live_status", .bool st.live_status)]

/-- The `RoomStatus.save_to_json` method.  `ioOk` is the outcome of the
mkdir/open/write I/O: on success the file now holds the dumped record and
the method returns `true`; any I/O exception is caught and the method
returns `false` (the file keeps its previous state in this model). -/
def save_to_json (st : RoomStatus) (ioOk : Bool) (fs : FileState) : Bool × FileState :=
  if ioOk then (true, .parsed (roomStatusDump st))
  else (false, fs)

/-- Python `isinstance(v, int)`: `bool` is a subclass of `int`. -/
def pyIsInstInt : PyValue → Bool
  | .int _ => true
  | .bool _ => true
  | _ => false

/-- Numeric value of a Python int-or-bool. -/
def pyIntValue : PyValue → Int
  | .int n => n
  | .bool b => if b then 1 else 0
  | _ => 0

/-- Python `int(v)` for a non-int `v` as attempted in the `room_id`
branch: strings parse or fail, other shapes raise (`Option.none`). -/
def pyToIntOpt : PyValue → Option Int
  | .str s => parsePyInt s
  | .bool b => some (if b then 1 else 0)
  | _ => Option.none

/-- The `PollManager._safe_int_convert` method: `None` and raising
conversions give the default, ints pass through unchanged (including
negative ones), bools give 0/1, numeric strings parse. -/
def _safe_int_convert (value : PyValue) (default : Int := 0) : Int :=
  match value with
  | .none => default
  | .int n => n
  | .bool b => if b then 1 else 0
  | .str s => (parsePyInt s).getD default
  | .list _ => default
  | .dict _ => default

/-- The string coercion `str(x) if x is not None else ''` used for
`title`, `live_time`, `area_name`, `room_silent_type` and `verify`. -/
def strOrEmpty : PyValue → String
  | .none => ""
  | v => pyStr v

/-- The optional-string coercion
`str(x) if x is not None else None` used for `user_cover`, `keyframe`,
`background` and `up_session` (`.get` without default first). -/
def strOrNone : Option PyValue → Option String
  | Option.none => Option.none
  | some .none => Option.none
  | some v => some (pyStr v)

/-- The `room_id` recovery logic of `_convert_to_room_info`: falsy values
fall back to the configured room id, non-int values are coerced with
`int()` and fall back on failure. -/
def convertRoomId (configRoomId : Int) (raw : Option PyValue) : Int :=
  match raw with
  | Option.none => configRoomId
  | some v =>
    if !pyTruthy v then configRoomId
    else if pyIsInstInt v then pyIntValue v
    else
      match pyToIntOpt v with
      | some n => n
      | Option.none => configRoomId

/-- The tag coercion of `_convert_to_room_info`: a string is split on
commas, each piece stripped, empty pieces dropped; a list has its non-None
entries stringified and stripped; anything else becomes `[]`. -/
def convertTags : PyValue → List String
  | .str s =>
    if s != "" then ((pySplitComma s).map pyTrim).filter (fun t => t != "")
    else []
  | .list xs =>
    xs.filterMap (fun v =>
      match v with
      | .none => Option.none
      | w => some (pyTrim (pyStr w)))
  | _ => []

/-- The hot-word coercion of `_convert_to_room_info`: a list has its
non-None entries stringified and stripped; anything else becomes `[]`. -/
def convertHotWords : PyValue → List String
  | .list xs =>
    xs.filterMap (fun v =>
      match v with
      | .none => Option.none
      | w => some (pyTrim (pyStr w)))
  | _ => []

/-- Python-dict coercion used for `new_pendants` and `studio_info`. -/
def dictOrEmpty : PyValue → List (String × PyValue)
  | .dict es => es
  | _ => []

/-- The `PollManager._convert_to_room_info` method.  Non-dict input raises
`ValueError` (modelled as `Except.error`); dict input always yields a
`RoomInfo` — the defensive `try/except` around the dataclass construction
is unreachable because the dataclass performs no validation. -/
def _convert_to_room_info (configRoomId : Int) (api_data : PyValue) :
    Except String RoomInfo :=
  match api_data with
  | .dict es =>
    .ok
      { room_id := convertRoomId configRoomId (dictGet es "room_id")
        title := strOrEmpty (dictGetD es "title" (.str ""))
        live_status := pyTruthy (dictGetD es "live_status" (.int 0))
        live_time := strOrEmpty (dictGetD es "live_time" (.str ""))
        area_name := strOrEmpty (dictGetD es "area_name" (.str ""))
        tags := convertTags (dictGetD es "tags" (.str ""))
        hot_words := convertHotWords (dictGetD es "hot_words" (.list []))
        online := _safe_int_convert (dictGetD es "online" (.int 0)) 0
        attention := _safe_int_convert (dictGetD es "attention" (.int 0)) 0
        user_cover := strOrNone (dictGet es "user_cover")
        keyframe := strOrNone (dictGet es "keyframe")
        is_strict_room := pyTruthy (dictGetD es "is_strict_room" (.bool false))
        room_silent_type := strOrEmpty (dictGetD es "room_silent_type" (.str ""))
        room_silent_level := _safe_int_convert (dictGetD es "room_silent_level" (.int 0)) 0
        room_silent_second := _safe_int_convert (dictGetD es "room_silent_second" (.int 0)) 0
        background := strOrNone (dictGet es "background")
        verify := strOrEmpty (dictGetD es "verify" (.str ""))
        new_pendants := dictOrEmpty (dictGetD es "new_pendants" (.dict []))
        up_session := strOrNone (dictGet es "up_session")
        pk_status := _safe_int_convert (dictGetD es "pk_status" (.int 0)) 0
        pk_id := _safe_int_convert (dictGetD es "pk_id" (.int 0)) 0
        battle_id := _safe_int_convert (dictGetD es "battle_id" (.int 0)) 0
        allow_change_area_time := _safe_int_convert (dictGetD es "allow_change_area_time" (.int 0)) 0
        allow_upload_cover_time := _safe_int_convert (dictGetD es "allow_upload_cover_time" (.int 0)) 0
        studio_info := dictOrEmpty (dictGetD es "studio_info" (.dict [])) }
  | _ => .error "API数据必须是字典格式"

/-- Observable actions of one execution of `PollManager._poll_once`
(after fetch and conversion), in program order. -/
inductive PollEffect where
  | save (status : RoomStatus)
  | callback (info : RoomInfo) (t : NotificationType)
  | warn (msg : String)
  | debug (msg : String)
  deriving Repr

/-- Truthiness of `previous_status and previous_status.live_status`:
a pydantic model instance is always truthy, so only `None` short-circuits. -/
def prevLiveFlag : Option RoomStatus → Bool
  | Option.none => false
  | some p => p.live_status

/-- Unfolding of `prevLiveFlag` at `None`. -/
theorem prevLiveFlag_none : prevLiveFlag Option.none = false := rfl

/-- Unfolding of `prevLiveFlag` at a present record. -/
theorem prevLiveFlag_some (p : RoomStatus) :
    prevLiveFlag (some p) = p.live_status := rfl

/-- The state-machine core of `PollManager._poll_once` (source lines
61-85): compares the fresh snapshot's live flag with the persisted record
and produces the persistence writes, callback invocations and log effects
in program order.  `callbackSet` is the truthiness of `self.call_back`. -/
def pollOnce (callbackSet : Bool) (previous : Option RoomStatus)
    (room_info : RoomInfo) : List PollEffect :=
  if room_info.live_status then
    if prevLiveFlag previous then
      [.debug "已在开播状态，跳过通知"]
    else
      [.save ⟨room_info.room_id, true⟩, .debug "检测到新开播"] ++
        (if callbackSet then [.callback room_info .LIVE_START]
         else [.warn "回调函数未设置"])
  else
    if prevLiveFlag previous then
      [.save ⟨room_info.room_id, false⟩] ++
        (if callbackSet then [.callback room_info .LIVE_END] else [])
    else
      [.debug "主播未开播"]

/-- Whether an effect is a persistence write. -/
def isSaveEffect : PollEffect → Bool
  | .save _ => true
  | _ => false

/-- Whether an effect is a callback invocation. -/
def isCallbackEffect : PollEffect → Bool
  | .callback _ _ => true
  | _ => false

/-- Whether an effect is a warning log. -/
def isWarnEffect : PollEffect → Bool
  | .warn _ => true
  | _ => false

/-- The mutable state of `PollManager` relevant to callback registration;
the callback slot holds an opaque identifier for the registered
function. -/
structure PollManager where
  running : Bool := false
  call_back : Option Nat := Option.none
  deriving Repr, DecidableEq

/-- The `PollManager.registerCallback` method: overwrite the single
callback slot. -/
def PollManager.registerCallback (m : PollManager) (callback : Option Nat) :
    PollManager :=
  { m with call_back := callback }

/-- Outcome of one network attempt inside `ApiClient._make_request`:
a 2xx response with parsed JSON body, a transport timeout
(`requests.exceptions.Timeout`), or another request failure
(`requests.exceptions.RequestException`, including `raise_for_status`). -/
inductive AttemptResult where
  | success (body : PyValue)
  | timeout
  | connError
  deriving Repr

/-- Result of `ApiClient._make_request`: a response, a raised
`ApiClientError`, or the implicit `None` fall-through when the retry loop
body never runs (`max_retries = 0`). -/
inductive ReqOutcome where
  | response (body : PyValue)
  | clientError (msg : String)
  | noneFallthrough
  deriving Repr

/-- The retry loop of `ApiClient._make_request` over the remaining attempt
numbers (`for attempt in range(1, max_retries + 1)`).  `net` maps an
attempt number to its outcome.  Returns the outcome together with the
number of attempts performed. -/
def requestLoop (maxRetries : Nat) (net : Nat → AttemptResult) :
    List Nat → ReqOutcome × Nat
  | [] => (.noneFallthrough, 0)
  | attempt :: rest =>
    match net attempt with
    | .success body => (.response body, 1)
    | .timeout =>
      if attempt = maxRetries then
        (.clientError ("请求超时（重试 " ++ toString maxRetries ++ " 次后）"), 1)
      else
        let r := requestLoop maxRetries net rest
        (r.1, r.2 + 1)
    | .connError =>
      if attempt = maxRetries then
        (.clientError ("请求失败（重试 " ++ toString maxRetries ++ " 次后）"), 1)
      else
        let r := requestLoop maxRetries net rest
        (r.1, r.2 + 1)

/-- The `ApiClient._make_request` method with `self.max_retries =
maxRetries`: iterate the attempt numbers `1, …, maxRetries`. -/
def _make_request (maxRetries : Nat) (net : Nat → AttemptResult) :
    ReqOutcome × Nat :=
  requestLoop maxRetries net (List.range' 1 maxRetries)

/-- Python `v == 0`: `False == 0` and `True == 1` because `bool` is an
`int` subtype; `None`, strings and containers never equal 0. -/
def pyEqZeroInt : PyValue → Bool
  | .int n => n == 0
  | .bool b => b == false
  | _ => false

/-- Python `data.get("code") != 0` for a JSON object: a missing key gives
`None != 0` (true). -/
def apiCodeNonzero (es : List (String × PyValue)) : Bool :=
  match dictGet es "code" with
  | Option.none => true
  | some v => !pyEqZeroInt v

/-- The body handling of `ApiClient.get_live_room_info` after a response
is obtained: non-zero `code` raises `ApiClientError` with the body's
`message` (stringified) or the generic fallback; on success the `data`
member is unwrapped, with any raised lookup error wrapped by the outer
`except` clause. -/
def parseLiveRoomBody (body : PyValue) : Except String PyValue :=
  match body with
  | .dict es =>
    if apiCodeNonzero es then
      .error (pyStr (dictGetD es "message" (.str "未知 API 错误")))
    else
      match dictGet es "data" with
      | some d => .ok d
      | Option.none => .error "获取直播间信息失败: KeyError"
  | _ => .error "获取直播间信息失败: AttributeError"

/-- The `ApiClient.get_live_room_info` call chain: perform the retried
request, then run the code-check/unwrap on the body.  The attempt count of
the transport layer is carried through so that application-level
rejections are visibly retry-free. -/
def get_live_room_info (maxRetries : Nat) (net : Nat → AttemptResult) :
    Except String PyValue × Nat :=
  match _make_request maxRetries net with
  | (.response body, k) => (parseLiveRoomBody body, k)
  | (.clientError m, k) => (.error m, k)
  | (.noneFallthrough, k) => (.error "获取直播间信息失败: AttributeError", k)

/-- Sample snapshot of a live room, used to instantiate witnesses. -/
def infoLive : RoomInfo :=
  { room_id := 42, title := "demo", live_status := true, live_time := ""
    area_name := "", tags := [], hot_words := [], online := 0, attention := 0 }

/-- Sample snapshot of an offline room, used to instantiate witnesses. -/
def infoOff : RoomInfo :=
  { infoLive with live_status := false }

example : parsePyInt " 42 " = some 42 := by decide
example : parsePyInt "-7" = some (-7) := by decide
example : parsePyInt "4.5" = Option.none := by decide
example : pyStr (.list [.str "a", .int 3]) = "['a', 3]" := by decide
example : (pySplitComma "a, b ,").map pyTrim = ["a", "b", ""] := by decide
example : pydBool (.str "True") = some true := by decide

/-- Claim C1: when the persisted status is absent or records
`live_status = false` and the fresh snapshot is live, the poll step
persists exactly one record with `live_status = true` and invokes the
registered callback exactly once, with the `LIVE_START` event. -/
theorem poll_live_start_transition (info : RoomInfo) (prev : Option RoomStatus)
    (hlive : info.live_status = true) (hprev : prevLiveFlag prev = false) :
    (pollOnce true prev info).filter isSaveEffect
      = [.save ⟨info.room_id, true⟩] ∧
    (pollOnce true prev info).filter isCallbackEffect
      = [.callback info .LIVE_START] := by
  simp [pollOnce, hlive, hprev, isSaveEffect, isCallbackEffect]

/-- Witness for C1: the transition fires on a concrete absent-then-live
tick. -/
theorem poll_live_start_transition_witness :
    (pollOnce true Option.none infoLive).filter isSaveEffect
      = [.save ⟨infoLive.room_id, true⟩] ∧
    (pollOnce true Option.none infoLive).filter isCallbackEffect
      = [.callback infoLive .LIVE_START] :=
  poll_live_start_transition infoLive Option.none rfl rfl

/-- Claim C2: when the persisted status records `live_status = true` and
the fresh snapshot is offline, the poll step persists exactly one record
with `live_status = false` and invokes the registered callback exactly
once, with the `LIVE_END` event. -/
theorem poll_live_end_transition (info : RoomInfo) (prev : Option RoomStatus)
    (hlive : info.live_status = false) (hprev : prevLiveFlag prev = true) :
    (pollOnce true prev info).filter isSaveEffect
      = [.save ⟨info.room_id, false⟩] ∧
    (pollOnce true prev info).filter isCallbackEffect
      = [.callback info .LIVE_END] := by
  simp [pollOnce, hlive, hprev, isSaveEffect, isCallbackEffect]

/-- Witness for C2: the transition fires on a concrete live-then-offline
tick. -/
theorem poll_live_end_transition_witness :
    (pollOnce true (some ⟨42, true⟩) infoOff).filter isSaveEffect
      = [.save ⟨infoOff.room_id, false⟩] ∧
    (pollOnce true (some ⟨42, true⟩) infoOff).filter isCallbackEffect
      = [.callback infoOff .LIVE_END] :=
  poll_live_end_transition infoOff (some ⟨42, true⟩) rfl rfl

/-- Claim C3: when the persisted live flag (absent treated as false)
equals the snapshot's live flag, the poll step performs no persistence
write and no callback invocation, whether or not a callback is set. -/
theorem poll_idempotent_no_write_no_emit (cb : Bool)
    (prev : Option RoomStatus) (info : RoomInfo)
    (h : prevLiveFlag prev = info.live_status) :
    (pollOnce cb prev info).filter isSaveEffect = [] ∧
    (pollOnce cb prev info).filter isCallbackEffect = [] := by
  cases hl : info.live_status <;> rw [hl] at h <;>
    simp [pollOnce, hl, h, isSaveEffect, isCallbackEffect]

/-- Witness for C3: a live snapshot observed while the persisted record is
already live produces no write and no emission. -/
theorem poll_idempotent_no_write_no_emit_witness :
    (pollOnce true (some ⟨42, true⟩) infoLive).filter isSaveEffect = [] ∧
    (pollOnce true (some ⟨42, true⟩) infoLive).filter isCallbackEffect = [] :=
  poll_idempotent_no_write_no_emit true (some ⟨42, true⟩) infoLive rfl

/-- Counterexample for C9: a LIVE_END transition (persisted live, snapshot
offline, save performed) with no registered callback logs no warning at
all, refuting the claim that every transition without a callback produces
a warning. -/
theorem poll_warn_counterexample :
    (pollOnce false (some ⟨1, true⟩) infoOff).filter isSaveEffect
      = [.save ⟨42, false⟩] ∧
    (pollOnce false (some ⟨1, true⟩) infoOff).filter isWarnEffect = [] :=
  ⟨rfl, rfl⟩

/-- Claim C9 (amended): with no callback registered, a LIVE_START
transition logs exactly one warning and still completes; a LIVE_END
transition logs no warning and still completes; and registering a callback
replaces any previously registered one. -/
theorem poll_warn_semantics :
    (∀ (prev : Option RoomStatus) (info : RoomInfo),
      info.live_status = true → prevLiveFlag prev = false →
      (pollOnce false prev info).filter isWarnEffect = [.warn "回调函数未设置"]) ∧
    (∀ (prev : Option RoomStatus) (info : RoomInfo),
      info.live_status = false → prevLiveFlag prev = true →
      (pollOnce false prev info).filter isWarnEffect = []) ∧
    (∀ (m : PollManager) (c1 c2 : Option Nat),
      ((m.registerCallback c1).registerCallback c2).call_back = c2) := by
  refine ⟨fun prev info hlive hprev => ?_, fun prev info hlive hprev => ?_,
    fun m c1 c2 => rfl⟩ <;>
    simp [pollOnce, hlive, hprev, isWarnEffect]

/-- Witness for C9 (amended): concrete start- and end-transitions with the
callback slot empty, and a concrete double registration. -/
theorem poll_warn_semantics_witness :
    (pollOnce false Option.none infoLive).filter isWarnEffect
      = [.warn "回调函数未设置"] ∧
    (pollOnce false (some ⟨42, true⟩) infoOff).filter isWarnEffect = [] ∧
    ((PollManager.registerCallback (PollManager.registerCallback {} (some 1))
      (some 2)).call_back = some 2) :=
  ⟨poll_warn_semantics.1 Option.none infoLive rfl rfl,
   poll_warn_semantics.2.1 (some ⟨42, true⟩) infoOff rfl rfl,
   poll_warn_semantics.2.2 {} (some 1) (some 2)⟩

/-- Claim C10: on any transition tick the persistence write is the first
effect, strictly before any callback invocation; at most one emission
occurs; and a later tick that observes the same live flag against the
just-persisted record emits nothing and writes nothing, so the transition
is never re-emitted even if the callback raised. -/
theorem poll_save_before_callback (cb cb2 : Bool) (prev : Option RoomStatus)
    (info info2 : RoomInfo)
    (htrans : prevLiveFlag prev ≠ info.live_status)
    (hsame : info2.live_status = info.live_status) :
    (pollOnce cb prev info).head?
      = some (.save ⟨info.room_id, info.live_status⟩) ∧
    ((pollOnce cb prev info).filter isCallbackEffect).length ≤ 1 ∧
    (pollOnce cb2 (some ⟨info.room_id, info.live_status⟩) info2).filter
      isCallbackEffect = [] ∧
    (pollOnce cb2 (some ⟨info.room_id, info.live_status⟩) info2).filter
      isSaveEffect = [] := by
  cases hl : info.live_status <;> rw [hl] at htrans hsame <;>
    simp only [ne_eq, Bool.not_eq_false, Bool.not_eq_true] at htrans <;>
    cases cb <;> cases cb2 <;>
    simp [pollOnce, hl, htrans, hsame, prevLiveFlag_some, isSaveEffect,
      isCallbackEffect]

/-- Witness for C10: a concrete offline-to-live transition followed by a
re-observation of the live state. -/
theorem poll_save_before_callback_witness :
    (pollOnce true Option.none infoLive).head?
      = some (.save ⟨infoLive.room_id, infoLive.live_status⟩) ∧
    ((pollOnce true Option.none infoLive).filter isCallbackEffect).length ≤ 1 ∧
    (pollOnce true (some ⟨infoLive.room_id, infoLive.live_status⟩)
      infoLive).filter isCallbackEffect = [] ∧
    (pollOnce true (some ⟨infoLive.room_id, infoLive.live_status⟩)
      infoLive).filter isSaveEffect = [] :=
  poll_save_before_callback true true Option.none infoLive infoLive
    (by decide) rfl

/-- Counterexample for C4: the normalizer raises `ValueError` on a
non-dict payload, and a payload supplying a negative `online` value yields
a snapshot whose `online` field is the negative integer -5, refuting both
the never-raises and the non-negativity parts of the claim. -/
theorem convert_counterexample :
    (_convert_to_room_info 7 (.int 3)).isOk = false ∧
    ((_convert_to_room_info 7
        (.dict [("online", .int (-5))])).toOption.map RoomInfo.online)
      = some (-5) :=
  ⟨rfl, rfl⟩

/-- Claim C4 (amended): for every dict payload the normalizer returns a
RoomSnapshot without raising, and every numeric field is the
`_safe_int_convert` image of the corresponding payload entry (so it
defaults to 0 on absent or unparseable values but passes a supplied
negative integer through); non-dict payloads raise `ValueError`, which
only the enclosing tick's handler absorbs. -/
theorem convert_dict_total_and_safe_ints :
    (∀ (cfg : Int) (es : List (String × PyValue)),
      ∃ r, _convert_to_room_info cfg (.dict es) = .ok r ∧
        r.online = _safe_int_convert (dictGetD es "online" (.int 0)) 0 ∧
        r.attention = _safe_int_convert (dictGetD es "attention" (.int 0)) 0 ∧
        r.room_silent_level
          = _safe_int_convert (dictGetD es "room_silent_level" (.int 0)) 0 ∧
        r.room_silent_second
          = _safe_int_convert (dictGetD es "room_silent_second" (.int 0)) 0 ∧
        r.pk_status = _safe_int_convert (dictGetD es "pk_status" (.int 0)) 0 ∧
        r.pk_id = _safe_int_convert (dictGetD es "pk_id" (.int 0)) 0 ∧
        r.battle_id = _safe_int_convert (dictGetD es "battle_id" (.int 0)) 0 ∧
        r.allow_change_area_time
          = _safe_int_convert (dictGetD es "allow_change_area_time" (.int 0)) 0 ∧
        r.allow_upload_cover_time
          = _safe_int_convert (dictGetD es "allow_upload_cover_time" (.int 0)) 0) ∧
    (∀ (cfg : Int) (v : PyValue), (∀ es, v ≠ .dict es) →
      (_convert_to_room_info cfg v).isOk = false) := by
  constructor
  · intro cfg es
    exact ⟨_, rfl, rfl, rfl, rfl, rfl, rfl, rfl, rfl, rfl, rfl⟩
  · intro cfg v hv
    cases v with
    | dict es => exact absurd rfl (hv es)
    | none => rfl
    | bool b => rfl
    | int n => rfl
    | str s => rfl
    | list xs => rfl

/-- Witness for C4 (amended): a concrete malformed dict payload
normalizes successfully with defaulted numerics, and a concrete non-dict
payload is rejected. -/
theorem convert_dict_total_and_safe_ints_witness :
    (∃ r, _convert_to_room_info 7
        (.dict [("online", .str "many"), ("tags", .int 1)]) = .ok r ∧
      r.online = _safe_int_convert
        (dictGetD [("online", .str "many"), ("tags", .int 1)] "online" (.int 0)) 0 ∧
      r.attention = _safe_int_convert
        (dictGetD [("online", .str "many"), ("tags", .int 1)] "attention" (.int 0)) 0 ∧
      r.room_silent_level = _safe_int_convert
        (dictGetD [("online", .str "many"), ("tags", .int 1)] "room_silent_level" (.int 0)) 0 ∧
      r.room_silent_second = _safe_int_convert
        (dictGetD [("online", .str "many"), ("tags", .int 1)] "room_silent_second" (.int 0)) 0 ∧
      r.pk_status = _safe_int_convert
        (dictGetD [("online", .str "many"), ("tags", .int 1)] "pk_status" (.int 0)) 0 ∧
      r.pk_id = _safe_int_convert
        (dictGetD [("online", .str "many"), ("tags", .int 1)] "pk_id" (.int 0)) 0 ∧
      r.battle_id = _safe_int_convert
        (dictGetD [("online", .str "many"), ("tags", .int 1)] "battle_id" (.int 0)) 0 ∧
      r.allow_change_area_time = _safe_int_convert
        (dictGetD [("online", .str "many"), ("tags", .int 1)] "allow_change_area_time" (.int 0)) 0 ∧
      r.allow_upload_cover_time = _safe_int_convert
        (dictGetD [("online", .str "many"), ("tags", .int 1)] "allow_upload_cover_time" (.int 0)) 0) ∧
    (_convert_to_room_info 7 (.str "oops")).isOk = false :=
  ⟨convert_dict_total_and_safe_ints.1 7 [("online", .str "many"), ("tags", .int 1)],
   convert_dict_total_and_safe_ints.2 7 (.str "oops")
     (fun es h => by cases h)⟩

/-- Exhaustion lemma for the retry loop: if every attempt in a final
segment of the attempt range times out, the loop raises the timeout
`ApiClientError` after exactly that many further attempts. -/
theorem requestLoop_timeout_exhaust (maxRetries : Nat)
    (net : Nat → AttemptResult) (hnet : ∀ i, net i = .timeout) :
    ∀ (len a : Nat), 1 ≤ a → a + len = maxRetries + 1 → 1 ≤ len →
      requestLoop maxRetries net (List.range' a len)
        = (.clientError ("请求超时（重试 " ++ toString maxRetries ++ " 次后）"), len) := by
  intro len
  induction len with
  | zero => intro a _ _ h; omega
  | succ n ih =>
    intro a ha hsum _
    rw [show List.range' a (n + 1) = a :: List.range' (a + 1) n from rfl]
    rcases Nat.eq_zero_or_pos n with hn | hn
    · subst hn
      have haeq : a = maxRetries := by omega
      simp [requestLoop, hnet, haeq]
    · have hane : ¬(a = maxRetries) := by omega
      have := ih (a + 1) (by omega) (by omega) hn
      simp [requestLoop, hnet, hane, this]

/-- Claim C5: with `max_retries = 3`, two transport timeouts followed by a
success make the call succeed on exactly the third attempt; and for any
`max_retries = n ≥ 1`, if every attempt times out the call raises a client
error after exactly `n` attempts, with no further attempt made. -/
theorem client_retry_and_exhaustion (n : Nat) (net net2 : Nat → AttemptResult)
    (b : PyValue) (h1 : net 1 = .timeout) (h2 : net 2 = .timeout)
    (h3 : net 3 = .success b) (hn : 1 ≤ n)
    (hall : ∀ i, net2 i = .timeout) :
    _make_request 3 net = (.response b, 3) ∧
    _make_request n net2
      = (.clientError ("请求超时（重试 " ++ toString n ++ " 次后）"), n) := by
  constructor
  · show requestLoop 3 net [1, 2, 3] = _
    simp [requestLoop, h1, h2, h3]
  · show requestLoop n net2 (List.range' 1 n) = _
    exact requestLoop_timeout_exhaust n net2 hall n 1 (by omega) (by omega) hn

/-- Network oracle timing out on the first two attempts and succeeding on
the third. -/
def netTwoTimeouts : Nat → AttemptResult :=
  fun i => if i ≤ 2 then .timeout else .success (.dict [])

/-- Network oracle timing out on every attempt. -/
def netAllTimeout : Nat → AttemptResult :=
  fun _ => .timeout

/-- Witness for C5: the two scenarios on concrete oracles with
`max_retries = 3`. -/
theorem client_retry_and_exhaustion_witness :
    _make_request 3 netTwoTimeouts = (.response (.dict []), 3) ∧
    _make_request 3 netAllTimeout
      = (.clientError ("请求超时（重试 " ++ toString 3 ++ " 次后）"), 3) :=
  client_retry_and_exhaustion 3 netTwoTimeouts netAllTimeout (.dict [])
    rfl rfl rfl (by omega) (fun _ => rfl)

/-- Claim C6: when the HTTP exchange succeeds on the first attempt but the
JSON body carries a non-zero `code`, `get_live_room_info` fails with the
body's `message` (stringified; generic fallback when absent) after exactly
one attempt — application-level rejections are not retried. -/
theorem api_code_error_no_retry (n : Nat) (net : Nat → AttemptResult)
    (es : List (String × PyValue)) (c : PyValue) (hn : 1 ≤ n)
    (hnet : net 1 = .success (.dict es))
    (hcode : dictGet es "code" = some c)
    (hc : pyEqZeroInt c = false) :
    get_live_room_info n net
      = (.error (pyStr (dictGetD es "message" (.str "未知 API 错误"))), 1) := by
  obtain ⟨m, rfl⟩ : ∃ m, n = m + 1 := ⟨n - 1, by omega⟩
  have hreq : _make_request (m + 1) net = (.response (.dict es), 1) := by
    show requestLoop (m + 1) net (List.range' 1 (m + 1)) = _
    rw [show List.range' 1 (m + 1) = 1 :: List.range' 2 m from rfl]
    simp [requestLoop, hnet]
  simp [get_live_room_info, hreq, parseLiveRoomBody, apiCodeNonzero, hcode, hc]

/-- Body returned by the concrete oracle of the C6 witness. -/
def netCodeErr : Nat → AttemptResult :=
  fun _ => .success (.dict [("code", .int 1), ("message", .str "err")])

/-- Witness for C6: a concrete rejected body surfaces its message after a
single attempt. -/
theorem api_code_error_no_retry_witness :
    get_live_room_info 3 netCodeErr = (.error "err", 1) :=
  api_code_error_no_retry 3 netCodeErr
    [("code", .int 1), ("message", .str "err")] (.int 1)
    (by omega) rfl rfl rfl

/-- Claim C7: the persisted store never raises — loading a missing,
unreadable or unparseable file returns `None`, loading a parsed value that
fails validation returns `None`, and saving returns `false` exactly on
I/O failure and `true` exactly on success. -/
theorem store_never_raises :
    load_from_json .missing = Option.none ∧
    load_from_json .unreadable = Option.none ∧
    load_from_json .malformed = Option.none ∧
    (∀ v, roomStatusOfPy v = Option.none →
      load_from_json (.parsed v) = Option.none) ∧
    (∀ (st : RoomStatus) (fs : FileState),
      (save_to_json st false fs).1 = false) ∧
    (∀ (st : RoomStatus) (fs : FileState),
      (save_to_json st true fs).1 = true) :=
  ⟨rfl, rfl, rfl, fun _ h => h, fun _ _ => rfl, fun _ _ => rfl⟩

/-- Witness for C7: a concrete non-object JSON value fails validation and
loads as `None`; a concrete save fails and succeeds as dictated by the
I/O outcome. -/
theorem store_never_raises_witness :
    load_from_json (.parsed (.int 3)) = Option.none ∧
    (save_to_json ⟨5, true⟩ false .missing).1 = false ∧
    (save_to_json ⟨5, true⟩ true .missing).1 = true :=
  ⟨store_never_raises.2.2.2.1 (.int 3) rfl,
   store_never_raises.2.2.2.2.1 ⟨5, true⟩ .missing,
   store_never_raises.2.2.2.2.2 ⟨5, true⟩ .missing⟩

/-- Claim C8: saving any status to a writable path and loading it back
yields an equal status. -/
theorem store_roundtrip (st : RoomStatus) (fs : FileState) :
    load_from_json (save_to_json st true fs).2 = some st :=
  rfl
